import Mathlib

/-!
Verification of the warehouse floor-plan location model and walk-time
estimator.  The definitions below are shallow embeddings of the
TypeScript source: the search-enabled floor-plan component provides
`isValidLocation`, `buildCode`, `parseSearchInput`, the IDW walk-time
estimator and the UI event handlers; the entrance-view component
provides a second `formatMinutesSeconds`; the nine-row component
provides `isValidCell`.
-/

/-- Row identifiers of the 8-row floor plan (`type RowCode = 'I' | ... | 'G'`). -/
inductive RowCode
  | I | A | B | C | D | E | F | G
deriving DecidableEq, Repr

/-- The letter used when a row code is spliced into a template string. -/
def rowStr : RowCode → String
  | .I => ("I")
  | .A => ("A")
  | .B => ("B")
  | .C => ("C")
  | .D => ("D")
  | .E => ("E")
  | .F => ("F")
  | .G => ("G")

/-- `isValidLocation` from the search component: the L-shaped footprint test. -/
def isValidLocation (row : RowCode) (aisle : ℤ) : Bool :=
  if row = RowCode.I then decide (aisle ≥ 1) && decide (aisle ≤ 9)
  else if [RowCode.A, RowCode.B, RowCode.C, RowCode.D].contains row then
    decide (aisle ≥ 1) && decide (aisle ≤ 6)
  else if [RowCode.E, RowCode.F, RowCode.G].contains row then
    decide (aisle ≥ 1) && decide (aisle ≤ 5)
  else false

/-- `buildCode`: canonical text form; a JS number in `spot ? ... : ...` is
falsy exactly when it is `0`, which the embedding reproduces. -/
def buildCode (row : RowCode) (aisle : ℤ) (spot : Option ℤ) : String :=
  match spot with
  | some sp =>
    if sp = 0 then rowStr row ++ ("-") ++ toString aisle
    else rowStr row ++ ("-") ++ toString aisle ++ ("-") ++ toString sp
  | none => rowStr row ++ ("-") ++ toString aisle

/-- Result type of `parseSearchInput` (`ParsedSearch` in the source). -/
inductive ParsedSearch
  | ok (row : RowCode) (aisle : ℤ) (spot : Option ℤ)
  | err (message : String)
deriving DecidableEq, Repr

/-- The character class `[IA-G]` used by both search regexes, returning the
matched row. -/
def charToRow (c : Char) : Option RowCode :=
  if c = 'I' then some RowCode.I
  else if c = 'A' then some RowCode.A
  else if c = 'B' then some RowCode.B
  else if c = 'C' then some RowCode.C
  else if c = 'D' then some RowCode.D
  else if c = 'E' then some RowCode.E
  else if c = 'F' then some RowCode.F
  else if c = 'G' then some RowCode.G
  else none

/-- Numeric value of a decimal digit character (JS `Number` on a `\d` match). -/
def digitVal (c : Char) : ℤ := ((c.toNat - 48 : ℕ) : ℤ)

/-- The hyphenated regex `^([IA-G])-(\d)(?:-(\d))?$` as a match on the
character list of the normalized input. -/
def matchHyphen : List Char → Option (RowCode × ℤ × Option ℤ)
  | [r, '-', d] =>
    match charToRow r with
    | some row => if d.isDigit then some (row, digitVal d, none) else none
    | none => none
  | [r, '-', d, '-', s] =>
    match charToRow r with
    | some row =>
      if d.isDigit && s.isDigit then some (row, digitVal d, some (digitVal s)) else none
    | none => none
  | _ => none

/-- The compact regex `^([IA-G])(\d)(\d)?$` as a match on the character list. -/
def matchCompact : List Char → Option (RowCode × ℤ × Option ℤ)
  | [r, d] =>
    match charToRow r with
    | some row => if d.isDigit then some (row, digitVal d, none) else none
    | none => none
  | [r, d, s] =>
    match charToRow r with
    | some row =>
      if d.isDigit && s.isDigit then some (row, digitVal d, some (digitVal s)) else none
    | none => none
  | _ => none

/-- Model of JS `String.prototype.trim`: drop whitespace from both ends. -/
def jsTrim (l : List Char) : List Char :=
  ((l.dropWhile Char.isWhitespace).reverse.dropWhile Char.isWhitespace).reverse

/-- Model of JS `String.prototype.toUpperCase` on the ASCII inputs the
component handles. -/
def jsToUpper (l : List Char) : List Char := l.map Char.toUpper

/-- `parseSearchInput` from the search component: normalize, reject empty
input and foreign row letters, then try the hyphenated and compact
patterns with range checks on the extracted digits. -/
def parseSearchInput (raw : String) : ParsedSearch :=
  let value := jsToUpper (jsTrim raw.data)
  match value with
  | [] => ParsedSearch.err ("Enter a location (e.g., I-2-7 or I27)")
  | firstChar :: _ =>
    if ('A' ≤ firstChar ∧ firstChar ≤ 'Z') ∧ charToRow firstChar = none then
      ParsedSearch.err ("Invalid row (valid rows: I, A–G).")
    else
      match matchHyphen value with
      | some (row, aisle, spot) =>
        if aisle < 1 ∨ aisle > 9 then ParsedSearch.err ("Invalid aisle (valid range is 1–9).")
        else
          match spot with
          | some sp =>
            if sp < 1 ∨ sp > 9 then ParsedSearch.err ("Invalid spot (valid range is 1–9).")
            else ParsedSearch.ok row aisle spot
          | none => ParsedSearch.ok row aisle spot
      | none =>
        match matchCompact value with
        | some (row, aisle, spot) =>
          if aisle < 1 ∨ aisle > 9 then ParsedSearch.err ("Invalid aisle (valid range is 1–9).")
          else
            match spot with
            | some sp =>
              if sp < 1 ∨ sp > 9 then ParsedSearch.err ("Invalid spot (valid range is 1–9).")
              else ParsedSearch.ok row aisle spot
            | none => ParsedSearch.ok row aisle spot
        | none =>
          ParsedSearch.err ("Invalid format. Use ROW-AISLE-SPOT (I-2-7), partial (I-2), or compact (I27).")

/-- `formatMinutesSeconds` of the search component.  On integer input the JS
`Math.round` is the identity; `Math.max(0, n)` followed by the nonnegative
divisions and remainders is modelled with `Int.toNat` and `Nat` arithmetic. -/
def formatMinutesSeconds (totalSeconds : ℤ) : String :=
  let clamped : ℕ := totalSeconds.toNat
  let minutes := clamped / 60
  let seconds := clamped % 60
  let secondLabel := if seconds = 1 then ("second") else ("seconds")
  if minutes ≤ 0 then toString seconds ++ (" ") ++ secondLabel
  else
    let minuteLabel := if minutes = 1 then ("minute") else ("minutes")
    if seconds ≤ 0 then toString minutes ++ (" ") ++ minuteLabel
    else
      toString minutes ++ (" ") ++ minuteLabel ++ (" ") ++ toString seconds ++ (" ") ++ secondLabel

/-- `formatMinutesSeconds` of the entrance-view component: identical except
that the seconds label is always the literal `"seconds"`. -/
def formatMinutesSeconds2 (totalSeconds : ℤ) : String :=
  let clamped : ℕ := totalSeconds.toNat
  let minutes := clamped / 60
  let seconds := clamped % 60
  if minutes ≤ 0 then toString seconds ++ (" seconds")
  else
    let minuteLabel := if minutes = 1 then ("minute") else ("minutes")
    if seconds ≤ 0 then toString minutes ++ (" ") ++ minuteLabel
    else toString minutes ++ (" ") ++ minuteLabel ++ (" ") ++ toString seconds ++ (" seconds")

/-- The duration formatter as the spec states it: clamp negatives to zero,
split into minutes and seconds, omit a zero component, pluralize each unit
for counts other than one. -/
def specFormatDuration (n : ℤ) : String :=
  let c : ℕ := n.toNat
  let m := c / 60
  let s := c % 60
  let sPart := toString s ++ (" ") ++ (if s = 1 then ("second") else ("seconds"))
  let mPart := toString m ++ (" ") ++ (if m = 1 then ("minute") else ("minutes"))
  if m = 0 then sPart
  else if s = 0 then mPart
  else mPart ++ (" ") ++ sPart

/-- Row identifiers of the 9-row floor-plan variant. -/
inductive RowCode9
  | I | A | B | C | D | E | F | G | H
deriving DecidableEq, Repr

/-- `isValidCell` of the 9-row variant: row I spans columns 1–10, rows A–D
span 1–6, and the remaining rows (E through H) span 1–5. -/
def isValidCell (row : RowCode9) (column : ℤ) : Bool :=
  if row = RowCode9.I then decide (column ≥ 1) && decide (column ≤ 10)
  else if row = RowCode9.A ∨ row = RowCode9.B ∨ row = RowCode9.C ∨ row = RowCode9.D then
    decide (column ≥ 1) && decide (column ≤ 6)
  else decide (column ≥ 1) && decide (column ≤ 5)

/-- A fully resolved coordinate (`Location3D` in the source). -/
structure Loc3D where
  row : RowCode
  aisle : ℤ
  spot : ℤ
deriving DecidableEq, Repr

/-- Anchor entries of `WALK_TIME_ANCHORS` (a `Location3D` plus seconds). -/
structure AnchorT where
  row : RowCode
  aisle : ℤ
  spot : ℤ
  seconds : ℤ
deriving DecidableEq, Repr

/-- `ROW_INDEX`: the strict linear order G,F,E,D,C,B,A,I used by the estimator. -/
def ROW_INDEX : RowCode → ℕ
  | .G => 0
  | .F => 1
  | .E => 2
  | .D => 3
  | .C => 4
  | .B => 5
  | .A => 6
  | .I => 7

/-- The five measured anchors (`WALK_TIME_ANCHORS`). -/
def WALK_TIME_ANCHORS : List AnchorT :=
  [ { row := RowCode.I, aisle := 1, spot := 1, seconds := 70 },
    { row := RowCode.I, aisle := 9, spot := 9, seconds := 100 },
    { row := RowCode.D, aisle := 6, spot := 9, seconds := 48 },
    { row := RowCode.G, aisle := 1, spot := 9, seconds := 25 },
    { row := RowCode.E, aisle := 5, spot := 5, seconds := 30 } ]

/-- `Math.min(...anchorSeconds)` in the estimator. -/
def minAnchorSeconds : ℤ := ((WALK_TIME_ANCHORS.map (fun a => a.seconds)).min?).getD 0

/-- `Math.max(...anchorSeconds)` in the estimator. -/
def maxAnchorSeconds : ℤ := ((WALK_TIME_ANCHORS.map (fun a => a.seconds)).max?).getD 0

/-- The exact-hit test `a.row === loc.row && a.aisle === loc.aisle &&
a.spot === loc.spot` inside the estimator loop. -/
def matchesAnchor (a : AnchorT) (loc : Loc3D) : Bool :=
  a.row == loc.row && a.aisle == loc.aisle && a.spot == loc.spot

/-- The per-anchor weight computed by the loop body: normalized 3D distance
to the anchor, then inverse-square weighting with epsilon 1e-6. -/
noncomputable def anchorWeight (loc : Loc3D) (a : AnchorT) : ℝ :=
  let dr := |((ROW_INDEX loc.row : ℝ)) - ((ROW_INDEX a.row : ℝ))| / 7
  let da := |((loc.aisle : ℝ)) - ((a.aisle : ℝ))| / 8
  let ds := |((loc.spot : ℝ)) - ((a.spot : ℝ))| / 8
  let distance := Real.sqrt (dr * dr + da * da + ds * ds)
  1 / (distance + 1e-6) ^ 2

/-- The estimator loop: an early return on an exact anchor hit, otherwise
accumulation of the weighted sum and total weight, and after the loop the
clamped, rounded weighted average. -/
noncomputable def idwGo (loc : Loc3D) : List AnchorT → ℝ → ℝ → ℤ
  | [], weightedSum, weightTotal =>
    round (max ((minAnchorSeconds : ℝ))
      (min ((maxAnchorSeconds : ℝ)) (weightedSum / weightTotal)))
  | a :: rest, weightedSum, weightTotal =>
    if matchesAnchor a loc then a.seconds
    else idwGo loc rest (weightedSum + anchorWeight loc a * (a.seconds : ℝ))
      (weightTotal + anchorWeight loc a)

/-- `estimateWalkSecondsIDW` from the search component. -/
noncomputable def estimateWalkSecondsIDW (loc : Loc3D) : ℤ :=
  idwGo loc WALK_TIME_ANCHORS 0 0

/-- The weight of an anchor exactly as claimed by the spec:
`1 / (distance + 1e-6)^2` with the normalized Euclidean distance written
with squares. -/
noncomputable def specWeight (loc : Loc3D) (a : AnchorT) : ℝ :=
  1 / (Real.sqrt ((|((ROW_INDEX loc.row : ℝ)) - ((ROW_INDEX a.row : ℝ))| / 7) ^ 2
      + (|((loc.aisle : ℝ)) - ((a.aisle : ℝ))| / 8) ^ 2
      + (|((loc.spot : ℝ)) - ((a.spot : ℝ))| / 8) ^ 2) + 1e-6) ^ 2

/-- The estimator as the spec states it: an exact anchor hit returns the
recorded seconds, otherwise the inverse-distance-weighted average of the
anchor seconds, clamped into the anchor range and rounded. -/
noncomputable def specEstimateIDW (loc : Loc3D) : ℤ :=
  match WALK_TIME_ANCHORS.find? (fun a => matchesAnchor a loc) with
  | some a => a.seconds
  | none =>
    let num := (WALK_TIME_ANCHORS.map (fun a => specWeight loc a * (a.seconds : ℝ))).sum
    let den := (WALK_TIME_ANCHORS.map (fun a => specWeight loc a)).sum
    round (max ((minAnchorSeconds : ℝ)) (min ((maxAnchorSeconds : ℝ)) (num / den)))

/-- The `Location` record held in the component's selection state. -/
structure Location where
  row : RowCode
  aisle : ℤ
  spot : Option ℤ
  code : String
deriving DecidableEq, Repr

/-- The component state touched by the three handlers: the selection, the
search field value and the search error message. -/
structure UIState where
  selectedLocation : Option Location
  searchValue : String
  searchError : Option String
deriving DecidableEq, Repr

/-- `handleSpotClick`: select a clicked spot only when its cell is valid. -/
def handleSpotClick (s : UIState) (row : RowCode) (aisle : ℤ) (spot : ℤ) : UIState :=
  if isValidLocation row aisle then
    { selectedLocation := some
        { row := row, aisle := aisle, spot := some spot, code := buildCode row aisle (some spot) },
      searchValue := (""), searchError := none }
  else s

/-- `clearSelection`: reset selection, search text and error. -/
def clearSelection (_ : UIState) : UIState :=
  { selectedLocation := none, searchValue := (""), searchError := none }

/-- `handleSearchGo`: parse the search text, reject parse failures and
footprint violations with an error message, otherwise select the location. -/
def handleSearchGo (s : UIState) : UIState :=
  match parseSearchInput s.searchValue with
  | ParsedSearch.err msg => { s with searchError := some msg }
  | ParsedSearch.ok row aisle spot =>
    let noStorageMsg := ("No storage at ") ++ rowStr row ++ ("-") ++ toString aisle ++ (".")
    if !isValidLocation row aisle then
      { s with searchError := some noStorageMsg }
    else
      { selectedLocation := some
          { row := row, aisle := aisle, spot := spot, code := buildCode row aisle spot },
        searchValue := (""), searchError := none }

/-- The invariant claimed for the selection state: any selected location
satisfies the footprint check. -/
def selectionInvariant (s : UIState) : Prop :=
  ∀ loc : Location, s.selectedLocation = some loc → isValidLocation loc.row loc.aisle = true


/-- C3: `isValidLocation` is a total Boolean function on `RowCode × ℤ` that
is true exactly on the L-shaped footprint: row I for aisles 1–9, rows A–D
for aisles 1–6, rows E–G for aisles 1–5; in particular G-6 is invalid, G-5
is valid, I-9 is valid, and I-10 is invalid. -/
theorem isValidLocation_footprint :
    (∀ (row : RowCode) (aisle : ℤ),
      isValidLocation row aisle = true ↔
        ((row = RowCode.I ∧ 1 ≤ aisle ∧ aisle ≤ 9) ∨
         ((row = RowCode.A ∨ row = RowCode.B ∨ row = RowCode.C ∨ row = RowCode.D) ∧
           1 ≤ aisle ∧ aisle ≤ 6) ∨
         ((row = RowCode.E ∨ row = RowCode.F ∨ row = RowCode.G) ∧
           1 ≤ aisle ∧ aisle ≤ 5))) ∧
    isValidLocation RowCode.G 6 = false ∧
    isValidLocation RowCode.G 5 = true ∧
    isValidLocation RowCode.I 9 = true ∧
    isValidLocation RowCode.I 10 = false := by
  refine ⟨?_, by decide, by decide, by decide, by decide⟩
  intro row aisle
  cases row <;> simp [isValidLocation]

/-- C6 counterexample: `parseSearchInput "I-99"` does not fail with the
invalid-aisle error, contrary to the claim. -/
theorem parse_I99_not_invalid_aisle :
    parseSearchInput ("I-99") ≠ ParsedSearch.err ("Invalid aisle (valid range is 1–9).") := by
  decide

/-- C6 amended: empty input fails with the empty-input message and `"Z-1"`
with the invalid-row message, as claimed; `"I-99"` however fails with the
invalid-format message, because both accepted patterns only admit a single
aisle digit — the invalid-aisle error fires for an in-pattern but
out-of-range digit, e.g. `"I-0"`. -/
theorem parse_error_taxonomy :
    parseSearchInput ("") = ParsedSearch.err ("Enter a location (e.g., I-2-7 or I27)") ∧
    parseSearchInput ("Z-1") = ParsedSearch.err ("Invalid row (valid rows: I, A–G).") ∧
    parseSearchInput ("I-99") =
      ParsedSearch.err ("Invalid format. Use ROW-AISLE-SPOT (I-2-7), partial (I-2), or compact (I27).") ∧
    parseSearchInput ("I-0") = ParsedSearch.err ("Invalid aisle (valid range is 1–9).") := by
  exact ⟨by decide, by decide, by decide, by decide⟩

/-- C7 counterexample: in the 9-row variant, cell E-6 is not valid,
contrary to the claim that rows E–G keep the [1,6] bound there. -/
theorem isValidCell_E6_not_valid : ¬ isValidCell RowCode9.E 6 = true := by
  decide

/-- C7 amended: the 9-row variant keeps the [1,6] bound only for rows A–D;
rows E, F and G share the [1,5] bound with the added row H, and row I spans
[1,10]; in particular E-6 is invalid in that variant. -/
theorem isValidCell_nine_row_bounds :
    (∀ (row : RowCode9) (column : ℤ),
      isValidCell row column = true ↔
        ((row = RowCode9.I ∧ 1 ≤ column ∧ column ≤ 10) ∨
         ((row = RowCode9.A ∨ row = RowCode9.B ∨ row = RowCode9.C ∨ row = RowCode9.D) ∧
           1 ≤ column ∧ column ≤ 6) ∨
         ((row = RowCode9.E ∨ row = RowCode9.F ∨ row = RowCode9.G ∨ row = RowCode9.H) ∧
           1 ≤ column ∧ column ≤ 5))) ∧
    isValidCell RowCode9.E 6 = false := by
  refine ⟨?_, by decide⟩
  intro row column
  cases row <;> simp [isValidCell]

/-- C8: the hyphenated, compact and lowercase spellings of I-2-7 all parse
to the same successful result after trim-and-uppercase normalization. -/
theorem parse_three_forms_equivalent :
    parseSearchInput ("I-2-7") = ParsedSearch.ok RowCode.I 2 (some 7) ∧
    parseSearchInput ("I27") = ParsedSearch.ok RowCode.I 2 (some 7) ∧
    parseSearchInput ("i-2-7") = ParsedSearch.ok RowCode.I 2 (some 7) := by
  exact ⟨by decide, by decide, by decide⟩

/-- C9 counterexample: the entrance-view duration formatter does not
pluralize the seconds unit for a count of one — 61 seconds renders as
"1 minute 1 seconds", not "1 minute 1 second". -/
theorem formatMinutesSeconds2_not_pluralized :
    formatMinutesSeconds2 61 ≠ ("1 minute 1 second") ∧
    formatMinutesSeconds2 61 = ("1 minute 1 seconds") := by
  exact ⟨by decide, by decide⟩

/-- C9 amended: the search component's duration formatter clamps negatives
to zero, splits into minutes and seconds, omits zero components and
pluralizes both units, matching the spec-level formatter on every integer
and the claimed examples; the entrance-view variant pluralizes only the
minutes unit and renders 61 as "1 minute 1 seconds". -/
theorem formatMinutesSeconds_spec :
    (∀ n : ℤ, formatMinutesSeconds n = specFormatDuration n) ∧
    formatMinutesSeconds 70 = ("1 minute 10 seconds") ∧
    formatMinutesSeconds 25 = ("25 seconds") ∧
    formatMinutesSeconds 120 = ("2 minutes") ∧
    formatMinutesSeconds (-5) = ("0 seconds") ∧
    formatMinutesSeconds 61 = ("1 minute 1 second") ∧
    formatMinutesSeconds2 61 = ("1 minute 1 seconds") := by
  refine ⟨?_, by decide, by decide, by decide, by decide, by decide, by decide⟩
  intro n
  simp only [formatMinutesSeconds, specFormatDuration]
  by_cases hm : n.toNat / 60 = 0
  · simp [hm]
  · have h1 : ¬ (n.toNat / 60 ≤ 0) := by omega
    by_cases hs : n.toNat % 60 = 0
    · simp [hm, hs, h1]
    · have h2 : ¬ (n.toNat % 60 ≤ 0) := by omega
      simp [hm, hs, h1, h2, String.append_assoc]

/-- C4: parsing and footprint validation are separate stages: `"G-9"`
parses successfully with a range check only, the footprint check rejects
G-9, and the search handler composing the two leaves the selection
unchanged and reports the no-storage message naming G-9. -/
theorem parse_validate_two_stage :
    parseSearchInput ("G-9") = ParsedSearch.ok RowCode.G 9 none ∧
    isValidLocation RowCode.G 9 = false ∧
    ∀ s : UIState, s.searchValue = ("G-9") →
      (handleSearchGo s).selectedLocation = s.selectedLocation ∧
      (handleSearchGo s).searchError = some ("No storage at G-9.") := by
  refine ⟨by decide, by decide, ?_⟩
  intro s hs
  unfold handleSearchGo
  rw [hs]
  rw [show parseSearchInput ("G-9") = ParsedSearch.ok RowCode.G 9 none from by decide]
  exact ⟨rfl, rfl⟩

/-- C4 witness: the handler applied to a concrete state holding `"G-9"`. -/
theorem parse_validate_two_stage_witness :
    (handleSearchGo
        { selectedLocation := none, searchValue := ("G-9"), searchError := none }).selectedLocation
      = none ∧
    (handleSearchGo
        { selectedLocation := none, searchValue := ("G-9"), searchError := none }).searchError
      = some ("No storage at G-9.") :=
  parse_validate_two_stage.2.2
    { selectedLocation := none, searchValue := ("G-9"), searchError := none } rfl

/-- C5: parsing the canonical code built from any valid coordinate (valid
footprint cell, spot absent or in [1,9]) succeeds with exactly the original
row, aisle and spot. -/
theorem parse_buildCode_roundtrip (row : RowCode) (aisle : ℤ) (spot : Option ℤ)
    (hva : isValidLocation row aisle = true)
    (hs : spot = none ∨ ∃ sp, spot = some sp ∧ 1 ≤ sp ∧ sp ≤ 9) :
    parseSearchInput (buildCode row aisle spot) = ParsedSearch.ok row aisle spot := by
  have hb : 1 ≤ aisle ∧ aisle ≤ 9 := by
    cases row <;> simp [isValidLocation] at hva <;> omega
  obtain ⟨h1, h2⟩ := hb
  rcases hs with rfl | ⟨sp, rfl, hs1, hs2⟩
  · interval_cases aisle <;> revert hva <;> cases row <;> decide
  · interval_cases aisle <;> interval_cases sp <;> revert hva <;> cases row <;> decide

/-- C5 witness: the round trip at the concrete coordinate I-2-7. -/
theorem parse_buildCode_roundtrip_witness :
    parseSearchInput (buildCode RowCode.I 2 (some 7)) = ParsedSearch.ok RowCode.I 2 (some 7) :=
  parse_buildCode_roundtrip RowCode.I 2 (some 7) (by decide)
    (Or.inr ⟨7, rfl, by decide, by decide⟩)

/-- C10: each handler that writes the selection preserves the invariant
that a selected location passes the footprint check: spot clicks are
guarded by `isValidLocation`, search selection happens only after the parse
and the footprint check both succeed, and clearing deselects. -/
theorem selection_validity_invariant (s : UIState) (row : RowCode) (aisle spot : ℤ)
    (h : selectionInvariant s) :
    selectionInvariant (handleSpotClick s row aisle spot) ∧
    selectionInvariant (handleSearchGo s) ∧
    selectionInvariant (clearSelection s) := by
  refine ⟨?_, ?_, ?_⟩
  · unfold handleSpotClick
    cases hv : isValidLocation row aisle with
    | true =>
      simp only [hv, if_true]
      intro loc hl
      simp only [Option.some.injEq] at hl
      rw [← hl]
      exact hv
    | false =>
      simp only [hv, Bool.false_eq_true, if_false]
      exact h
  · unfold handleSearchGo
    cases hp : parseSearchInput s.searchValue with
    | err msg => exact fun loc hl => h loc hl
    | ok r a sp =>
      cases hv : isValidLocation r a with
      | true =>
        simp only [hv, Bool.not_true, Bool.false_eq_true, if_false]
        intro loc hl
        simp only [Option.some.injEq] at hl
        rw [← hl]
        exact hv
      | false =>
        simp only [hv, Bool.not_false, if_true]
        exact fun loc hl => h loc hl
  · exact fun loc hl => Option.noConfusion hl

/-- C10 witness: the invariant after a search from a concrete
invariant-satisfying state. -/
theorem selection_validity_invariant_witness :
    selectionInvariant
      (handleSearchGo { selectedLocation := none, searchValue := ("G-9"), searchError := none }) :=
  (selection_validity_invariant
      { selectedLocation := none, searchValue := ("G-9"), searchError := none }
      RowCode.I 1 1 (fun _ hl => Option.noConfusion hl)).2.1

/-- Rounding a value clamped into an integer interval stays in the interval. -/
lemma round_clamp_mem (lo hi : ℤ) (h : lo ≤ hi) (x : ℝ) :
    lo ≤ round (max ((lo : ℝ)) (min ((hi : ℝ)) x)) ∧
      round (max ((lo : ℝ)) (min ((hi : ℝ)) x)) ≤ hi := by
  constructor
  · have h1 : ((lo : ℝ)) ≤ max ((lo : ℝ)) (min ((hi : ℝ)) x) := le_max_left _ _
    have h2 : round ((lo : ℝ)) ≤ round (max ((lo : ℝ)) (min ((hi : ℝ)) x)) := by
      rw [round_eq, round_eq]
      exact Int.floor_le_floor (by linarith)
    rwa [round_intCast] at h2
  · have h1 : max ((lo : ℝ)) (min ((hi : ℝ)) x) ≤ ((hi : ℝ)) :=
      max_le (by exact_mod_cast h) (min_le_left _ _)
    have h2 : round (max ((lo : ℝ)) (min ((hi : ℝ)) x)) ≤ round ((hi : ℝ)) := by
      rw [round_eq, round_eq]
      exact Int.floor_le_floor (by linarith)
    rwa [round_intCast] at h2

/-- The estimator loop lands in [25, 100] whenever every anchor's recorded
seconds do: the early return is an anchor value and the final value is
clamped into exactly that interval. -/
lemma idwGo_mem_range (loc : Loc3D) (l : List AnchorT) (ws wt : ℝ)
    (hl : ∀ a ∈ l, 25 ≤ a.seconds ∧ a.seconds ≤ 100) :
    25 ≤ idwGo loc l ws wt ∧ idwGo loc l ws wt ≤ 100 := by
  induction l generalizing ws wt with
  | nil =>
    have h := round_clamp_mem 25 100 (by norm_num) (ws / wt)
    simpa [idwGo, show minAnchorSeconds = 25 from by decide,
      show maxAnchorSeconds = 100 from by decide] using h
  | cons a rest ih =>
    simp only [idwGo]
    cases hm : matchesAnchor a loc with
    | true =>
      simp only [hm, if_true]
      exact hl a (List.mem_cons_self a rest)
    | false =>
      simp only [hm, Bool.false_eq_true, if_false]
      exact ih _ _ (fun b hb => hl b (List.mem_cons_of_mem a hb))

/-- C2: for every coordinate (any row, any integer aisle and spot) the
estimate lies in the closed interval [25, 100], the minimum and maximum of
the anchors' recorded seconds. -/
theorem estimateWalkSecondsIDW_range (loc : Loc3D) :
    25 ≤ estimateWalkSecondsIDW loc ∧ estimateWalkSecondsIDW loc ≤ 100 :=
  idwGo_mem_range loc WALK_TIME_ANCHORS 0 0 (by decide)

/-- The loop-body weight equals the spec-stated weight: the products of the
normalized axis distances are their squares. -/
lemma anchorWeight_eq_specWeight (loc : Loc3D) (a : AnchorT) :
    anchorWeight loc a = specWeight loc a := by
  simp only [anchorWeight, specWeight]
  rw [show ∀ x y z : ℝ, x * x + y * y + z * z = x ^ 2 + y ^ 2 + z ^ 2 from
    fun x y z => by ring]

/-- The estimator loop is a first-match lookup, falling through to the
clamped, rounded weighted average of all anchors. -/
lemma idwGo_eq_find (loc : Loc3D) (l : List AnchorT) (ws wt : ℝ) :
    idwGo loc l ws wt =
      match l.find? (fun a => matchesAnchor a loc) with
      | some a => a.seconds
      | none =>
        round (max ((minAnchorSeconds : ℝ)) (min ((maxAnchorSeconds : ℝ))
          ((ws + (l.map (fun a => anchorWeight loc a * (a.seconds : ℝ))).sum) /
            (wt + (l.map (fun a => anchorWeight loc a)).sum)))) := by
  induction l generalizing ws wt with
  | nil => simp [idwGo]
  | cons a rest ih =>
    cases hm : matchesAnchor a loc with
    | true =>
      have hfind : List.find? (fun b => matchesAnchor b loc) (a :: rest) = some a := by
        simp [hm]
      rw [hfind]
      simp [idwGo, hm]
    | false =>
      have hfind : List.find? (fun b => matchesAnchor b loc) (a :: rest)
          = List.find? (fun b => matchesAnchor b loc) rest := by
        simp [hm]
      rw [hfind]
      simp only [idwGo, hm, Bool.false_eq_true, if_false]
      rw [ih]
      cases hf : rest.find? (fun b => matchesAnchor b loc) with
      | some b => simp only [hf]
      | none =>
        simp only [hf, List.map_cons, List.sum_cons]
        rw [add_assoc, add_assoc]

/-- C1: the estimator agrees with the spec-stated IDW rule at every
coordinate: an exact anchor hit returns that anchor's recorded seconds (in
particular I-1-1 returns 70), and any other coordinate returns the rounded,
clamped inverse-distance-weighted average of the five anchors. -/
theorem estimateWalkSecondsIDW_spec_correct :
    (∀ loc : Loc3D, estimateWalkSecondsIDW loc = specEstimateIDW loc) ∧
    estimateWalkSecondsIDW { row := RowCode.I, aisle := 1, spot := 1 } = 70 := by
  have hmain : ∀ loc : Loc3D, estimateWalkSecondsIDW loc = specEstimateIDW loc := by
    intro loc
    rw [estimateWalkSecondsIDW, idwGo_eq_find, specEstimateIDW]
    cases hf : WALK_TIME_ANCHORS.find? (fun a => matchesAnchor a loc) with
    | some a => simp only [hf]
    | none => simp only [hf, zero_add, anchorWeight_eq_specWeight]
  exact ⟨hmain, by decide⟩
